import Mathlib

/-!
Verification development for the `napalm_iosxr_rpc` adapter
(`src/napalm_iosxr_rpc/iosxr_rpc.py`).

The Python source is shallowly embedded:

* response trees and other dynamic Python values become the inductive
  `Value`; `dict.get`, iteration and `==`-against-a-string-literal are
  modelled by `pyGet`, `pyIter` and `eqStr`, which raise (return
  `Except.error`) exactly where Python would raise;
* the driver's configuration-session methods (`_lock`, `_unlock`,
  `_load_candidate`, `commit_config`, `discard_config`) become explicit
  state-passing functions over `DriverState`; the underlying device is an
  oracle (`Device`) saying which RPCs succeed, and each function also
  returns the list of RPCs it issued;
* wall-clock floats (`time.time()`, the `1e-3` speed scaling) are modelled
  over `Int`; no claim inspects a float-valued field.
-/

namespace IosxrRpc

/-- Dynamic Python values as they occur in the response trees: `None`,
booleans, integers, strings, lists and dicts with string keys (all keys in
the YANG response trees are strings). -/
inductive Value where
  | none : Value
  | bool : Bool → Value
  | int : Int → Value
  | str : String → Value
  | list : List Value → Value
  | node : List (String × Value) → Value

/-- Python exceptions that the embedded code can raise. -/
inductive PyErr where
  | attributeError : PyErr
  | keyError : PyErr
  | typeError : PyErr
deriving DecidableEq

/-- Lookup in a dict, returning `None` for a missing key (Python
`dict.get(k)` with its default of `None`). -/
def nodeGet (kvs : List (String × Value)) (k : String) : Value :=
  match kvs.find? (fun kv => kv.1 == k) with
  | some kv => kv.2
  | none => Value.none

/-- Python `v.get(k)`: defined on dicts, `AttributeError` on anything else
(including `None`, which is what a missing intermediate key produces). -/
def pyGet (v : Value) (k : String) : Except PyErr Value :=
  match v with
  | .node kvs => .ok (nodeGet kvs k)
  | _ => .error .attributeError

/-- Python `for x in v`: lists yield their elements, dicts yield their KEYS
(this is what makes the un-wrapped singleton-dict iteration go wrong),
strings yield their one-character substrings, other values raise
`TypeError`. -/
def pyIter (v : Value) : Except PyErr (List Value) :=
  match v with
  | .list xs => .ok xs
  | .node kvs => .ok (kvs.map (fun kv => Value.str kv.1))
  | .str s => .ok (s.toList.map (fun c => Value.str (String.mk [c])))
  | _ => .error .typeError

/-- Python `v == "s"` for a string literal on the right: true exactly when
`v` is an equal string. -/
def eqStr (v : Value) (s : String) : Bool :=
  match v with
  | .str t => t == s
  | _ => false

/-- Whether a value is a dict (Python `isinstance(v, dict)`). -/
def Value.isNode : Value → Bool
  | .node _ => true
  | _ => false

/-- Python `==` between dict keys.  Keys arriving from the response trees
are strings or `None`; cross-type numeric/bool equality is not needed by
any code path modelled here. -/
def keyEq : Value → Value → Bool
  | .none, .none => true
  | .bool a, .bool b => a == b
  | .int a, .int b => a == b
  | .str a, .str b => a == b
  | _, _ => false

/-- Hashability of a dict key (lists and dicts are unhashable in Python). -/
def Value.isHashable : Value → Bool
  | .list _ => false
  | .node _ => false
  | _ => true

/-- Python `d[k] = v` on a dict modelled as an association list: replace
the value when the key is present, append otherwise; raising `TypeError`
on an unhashable key. -/
def dictInsert {α : Type} (kvs : List (Value × α)) (k : Value) (v : α) :
    Except PyErr (List (Value × α)) :=
  if k.isHashable then
    if kvs.any (fun kv => keyEq kv.1 k) then
      .ok (kvs.map (fun kv => if keyEq kv.1 k then (kv.1, v) else kv))
    else
      .ok (kvs ++ [(k, v)])
  else
    .error .typeError

/-- Digits of a nonempty decimal numeral, as a natural number. -/
def digitsToNat? (cs : List Char) : Option Nat :=
  if cs.isEmpty then none
  else cs.foldl (fun acc c =>
    match acc with
    | some n => if c.isDigit then some (n * 10 + (c.toNat - 48)) else none
    | none => none) (some 0)

/-- Python `int(s)` on a string: optional sign then digits; anything else
fails (and `convert` then falls back to its default).  Surrounding
whitespace, which Python would also strip, is not modelled — no value in
these trees carries it. -/
def parseInt? (s : String) : Option Int :=
  match s.data with
  | '-' :: cs => (digitsToNat? cs).map (fun n => -(n : Int))
  | '+' :: cs => (digitsToNat? cs).map (fun n => (n : Int))
  | cs => (digitsToNat? cs).map (fun n => (n : Int))

/-- Embeds `napalm_base.helpers.convert(to, who, default)` at `to = int`:
`None` yields the default, a parseable string yields its integer value, an
int passes through, `int(True) = 1`, and any conversion failure yields the
default. -/
def convert_int (who : Value) (default : Value) : Value :=
  match who with
  | .none => default
  | .str s =>
    match parseInt? s with
    | some n => .int n
    | none => default
  | .int n => .int n
  | .bool b => .int (if b then 1 else 0)
  | _ => default

/-- `convert` with an integer default, returned as `Int` (also used for the
float conversions, which are modelled over `Int`). -/
def convert_int_d (who : Value) (d : Int) : Int :=
  match convert_int who (.int d) with
  | .int n => n
  | _ => d

/-! ### Constructor options and port selection (`IOSXRRPCDriver.__init__`) -/

/-- The `optional_args` keys read by the constructor. -/
structure OptionalArgs where
  iosxr_transport : Option String
  port : Option Nat
  config_lock : Option Bool

def DEFAULT_NC_PORT : Nat := 830

def DEFAULT_GRPC_PORT : Nat := 57400

/-- Python `str.lower()` for the ASCII option values involved here,
written over the character list so it evaluates by kernel reduction. -/
def strLower (s : String) : String := String.mk (s.data.map Char.toLower)

/-- Embeds `optional_args.get('iosxr_transport', '').lower() != 'grpc'`. -/
def is_netconf (args : OptionalArgs) : Bool :=
  strLower (args.iosxr_transport.getD "") != "grpc"

/-- Embeds `self._default_port = DEFAULT_NC_PORT if self.__netconf else DEFAULT_GRPC_PORT`. -/
def default_port (args : OptionalArgs) : Nat :=
  if is_netconf args then DEFAULT_NC_PORT else DEFAULT_GRPC_PORT

/-- Embeds `self._port = optional_args.get('port', self._default_port)`. -/
def effective_port (args : OptionalArgs) : Nat :=
  args.port.getD (default_port args)

/-- Embeds `self._config_lock = optional_args.get('config_lock', True)`. -/
def effective_config_lock (args : OptionalArgs) : Bool :=
  args.config_lock.getD true

/-! ### The configuration session state machine -/

/-- Which underlying RPCs succeed; the device is an oracle for the
fallible calls issued by the configuration methods. -/
structure Device where
  lockOk : Bool
  unlockOk : Bool
  editOk : Bool
  commitOk : Bool
  discardOk : Bool
deriving DecidableEq

/-- One RPC issued against the device.  `edit` carries the candidate text
actually sent (`None`-able, as in Python) and the `operation` keyword. -/
inductive RpcCall where
  | lock : RpcCall
  | unlock : RpcCall
  | edit : Option String → Option String → RpcCall
  | commit : RpcCall
  | discard : RpcCall
deriving DecidableEq

/-- The caller-visible exceptions of the configuration methods. -/
inductive NapalmErr where
  | sessionLocked : NapalmErr
  | mergeConfig : NapalmErr
  | replaceConfig : NapalmErr
  | rpcError : NapalmErr
deriving DecidableEq

/-- The driver's mutable flags that the configuration methods read and
write: `self._config_lock` and `self._locked`. -/
structure DriverState where
  config_lock : Bool
  locked : Bool
deriving DecidableEq

/-- Result of one method call: the outcome (normal return or raised
exception), the updated driver state, and the RPCs issued, in order. -/
abbrev StepResult := Except NapalmErr Unit × DriverState × List RpcCall

/-- Embeds `_lock`: issue the lock RPC only when `self._locked` is false;
set the flag only after the RPC succeeds; map a lock failure to
`SessionLockedException`. -/
def lock_ (dev : Device) (s : DriverState) : StepResult :=
  if s.locked then (.ok (), s, [])
  else if dev.lockOk then (.ok (), ⟨s.config_lock, true⟩, [.lock])
  else (.error .sessionLocked, s, [.lock])

/-- Embeds `_unlock`: issue the unlock RPC only when `self._locked` is
true; clear the flag only after the RPC succeeds; map an unlock failure to
`SessionLockedException`. -/
def unlock_ (dev : Device) (s : DriverState) : StepResult :=
  if s.locked then
    if dev.unlockOk then (.ok (), ⟨s.config_lock, false⟩, [.unlock])
    else (.error .sessionLocked, s, [.unlock])
  else (.ok (), s, [])

/-- Embeds `_load_candidate(filename, config, replace)`.  `fs` maps a file
name to its contents (`open(filename).read()`).  The file contents, when a
filename is given, overwrite the `config` argument; with a lazy locking
policy the lock is acquired first; the edit RPC failure is mapped to
`ReplaceConfigException` or `MergeConfigException` according to `replace`. -/
def load_candidate (dev : Device) (fs : String → String) (s : DriverState)
    (filename : Option String) (config : Option String) (replace : Bool) :
    StepResult :=
  let config := match filename with
    | some f => some (fs f)
    | none => config
  let step1 : StepResult :=
    if !s.config_lock then lock_ dev s else (.ok (), s, [])
  match step1 with
  | (.error e, s1, t1) => (.error e, s1, t1)
  | (.ok _, s1, t1) =>
    let operation : Option String := if replace then some "replace" else none
    if dev.editOk then
      (.ok (), s1, t1 ++ [.edit config operation])
    else if replace then
      (.error .replaceConfig, s1, t1 ++ [.edit config operation])
    else
      (.error .mergeConfig, s1, t1 ++ [.edit config operation])

/-- Embeds `load_merge_candidate(filename, config)`. -/
def load_merge_candidate (dev : Device) (fs : String → String)
    (s : DriverState) (filename : Option String) (config : Option String) :
    StepResult :=
  load_candidate dev fs s filename config false

/-- Embeds `load_replace_candidate(filename, config)`. -/
def load_replace_candidate (dev : Device) (fs : String → String)
    (s : DriverState) (filename : Option String) (config : Option String) :
    StepResult :=
  load_candidate dev fs s filename config true

/-- Embeds `commit_config`: issue the commit RPC (a failure propagates as
the underlying protocol error and skips the unlock); on success, with a
lazy locking policy, release the lock. -/
def commit_config (dev : Device) (s : DriverState) : StepResult :=
  if dev.commitOk then
    if !s.config_lock then
      match unlock_ dev s with
      | (r, s1, t1) => (r, s1, .commit :: t1)
    else (.ok (), s, [.commit])
  else (.error .rpcError, s, [.commit])

/-- Embeds `discard_config`: issue the discard-changes RPC; on success,
with a lazy locking policy, release the lock. -/
def discard_config (dev : Device) (s : DriverState) : StepResult :=
  if dev.discardOk then
    if !s.config_lock then
      match unlock_ dev s with
      | (r, s1, t1) => (r, s1, .discard :: t1)
    else (.ok (), s, [.discard])
  else (.error .rpcError, s, [.discard])

/-- Number of lock RPCs in a trace. -/
def countLock (t : List RpcCall) : Nat :=
  t.countP (fun c => match c with | .lock => true | _ => false)

/-- Number of unlock RPCs in a trace. -/
def countUnlock (t : List RpcCall) : Nat :=
  t.countP (fun c => match c with | .unlock => true | _ => false)

/-- The candidate texts carried by the edit RPCs of a trace, in order. -/
def editPayloads (t : List RpcCall) : List (Option String) :=
  t.filterMap (fun c => match c with | .edit cfg _ => some cfg | _ => none)

/-- `_lock` called twice in a row (an exception from the first call aborts
the sequence, as it would in Python). -/
def lock_twice (dev : Device) (s : DriverState) : StepResult :=
  match lock_ dev s with
  | (.error e, s1, t1) => (.error e, s1, t1)
  | (.ok _, s1, t1) =>
    match lock_ dev s1 with
    | (r2, s2, t2) => (r2, s2, t1 ++ t2)

/-- `_unlock` called twice in a row. -/
def unlock_twice (dev : Device) (s : DriverState) : StepResult :=
  match unlock_ dev s with
  | (.error e, s1, t1) => (.error e, s1, t1)
  | (.ok _, s1, t1) =>
    match unlock_ dev s1 with
    | (r2, s2, t2) => (r2, s2, t1 ++ t2)

/-! ### Operational normalizers -/

/-- One entry of the `get_interfaces` output dict.  `speed` and
`last_flapped` are float-valued in Python; they are modelled over `Int`
(truncating division stands in for the `* 1e-3` scaling). -/
structure IfaceRec where
  is_enabled : Bool
  is_up : Bool
  mac_address : Value
  description : Value
  speed : Int
  last_flapped : Int

/-- Per-interface body of the `get_interfaces` loop: the dict literal
assigned to `interfaces[interface_name]`.  `now` stands for `time.time()`. -/
def mk_iface_record (interface : Value) (now : Int) : Except PyErr IfaceRec := do
  let state ← pyGet interface "state"
  let line_state ← pyGet interface "line-state"
  let mac_node ← pyGet interface "mac-address"
  let address ← pyGet mac_node "address"
  let description ← pyGet interface "description"
  let transition ← pyGet interface "last-state-transition-time"
  pure ⟨eqStr state "im-state-up",
        eqStr line_state "im-state-up",
        address,
        description,
        Int.tdiv (convert_int_d description 0) 1000,
        now - convert_int_d transition 0⟩

/-- The iteration skeleton shared verbatim by `get_interfaces` and
`get_interfaces_counters` (the source duplicates it): for each interface,
read `interface-name`, skip the entry when the name equals `Null0`,
otherwise build the per-interface record and store it under the name. -/
def norm_loop {α : Type} (body : Value → Except PyErr α) :
    List Value → List (Value × α) → Except PyErr (List (Value × α))
  | [], acc => .ok acc
  | interface :: rest, acc =>
    match pyGet interface "interface-name" with
    | .error e => .error e
    | .ok interface_name =>
      if eqStr interface_name "Null0" then
        norm_loop body rest acc
      else
        match body interface with
        | .error e => .error e
        | .ok r =>
          match dictInsert acc interface_name r with
          | .error e => .error e
          | .ok acc' => norm_loop body rest acc'

/-- Embeds `get_interfaces`: the response tree is drilled into via
`data / interfaces / interface-xr / interface`, iterated, and folded into
a dict keyed by interface name. -/
def get_interfaces (tree : Value) (now : Int) :
    Except PyErr (List (Value × IfaceRec)) := do
  let d ← pyGet tree "data"
  let i1 ← pyGet d "interfaces"
  let i2 ← pyGet i1 "interface-xr"
  let interfaces_details ← pyGet i2 "interface"
  let items ← pyIter interfaces_details
  norm_loop (fun interface => mk_iface_record interface now) items []

/-- Per-interface body of the `get_interfaces_counters` loop: the dict
literal assigned to `interfaces_counters[interface_name]`, with the twelve
counter fields in source order, each defaulting to `-1`. -/
def mk_counter_record (interface_stats : Value) :
    Except PyErr (List (String × Value)) := do
  let v1 ← pyGet interface_stats "multicast-packets-sent"
  let v2 ← pyGet interface_stats "output-drops"
  let v3 ← pyGet interface_stats "bytes-sent"
  let v4 ← pyGet interface_stats "output-errors"
  let v5 ← pyGet interface_stats "bytes-received"
  let v6 ← pyGet interface_stats "packets-sent"
  let v7 ← pyGet interface_stats "input-errors"
  let v8 ← pyGet interface_stats "broadcast-packets-sent"
  let v9 ← pyGet interface_stats "multicast-packets-received"
  let v10 ← pyGet interface_stats "broadcast-packets-received"
  let v11 ← pyGet interface_stats "input-drops"
  let v12 ← pyGet interface_stats "packets-received"
  pure [("tx_multicast_packets", convert_int v1 (.int (-1))),
        ("tx_discards", convert_int v2 (.int (-1))),
        ("tx_octets", convert_int v3 (.int (-1))),
        ("tx_errors", convert_int v4 (.int (-1))),
        ("rx_octets", convert_int v5 (.int (-1))),
        ("tx_unicast_packets", convert_int v6 (.int (-1))),
        ("rx_errors", convert_int v7 (.int (-1))),
        ("tx_broadcast_packets", convert_int v8 (.int (-1))),
        ("rx_multicast_packets", convert_int v9 (.int (-1))),
        ("rx_broadcast_packets", convert_int v10 (.int (-1))),
        ("rx_discards", convert_int v11 (.int (-1))),
        ("rx_unicast_packets", convert_int v12 (.int (-1)))]

/-- The body run per interface by `get_interfaces_counters`: reach the
`interface-statistics / full-interface-stats` node, then build the counter
record. -/
def counters_body (interface : Value) : Except PyErr (List (String × Value)) := do
  let s1 ← pyGet interface "interface-statistics"
  let interface_stats ← pyGet s1 "full-interface-stats"
  mk_counter_record interface_stats

/-- Embeds `get_interfaces_counters`. -/
def get_interfaces_counters (tree : Value) :
    Except PyErr (List (Value × List (String × Value))) := do
  let d ← pyGet tree "data"
  let i1 ← pyGet d "interfaces"
  let i2 ← pyGet i1 "interface-xr"
  let interfaces_details ← pyGet i2 "interface"
  let items ← pyIter interfaces_details
  norm_loop counters_body items []

/-- The response tree of the interfaces RPC around a given value for the
innermost `interface` field. -/
def wrap_iface_tree (v : Value) : Value :=
  .node [("data",
    .node [("interfaces",
      .node [("interface-xr",
        .node [("interface", v)])])])]

/-- The (output key, source key) correspondence of the counter record, in
source order; used to state the defaulting property uniformly. -/
def counterPairs : List (String × String) :=
  [("tx_multicast_packets", "multicast-packets-sent"),
   ("tx_discards", "output-drops"),
   ("tx_octets", "bytes-sent"),
   ("tx_errors", "output-errors"),
   ("rx_octets", "bytes-received"),
   ("tx_unicast_packets", "packets-sent"),
   ("rx_errors", "input-errors"),
   ("tx_broadcast_packets", "broadcast-packets-sent"),
   ("rx_multicast_packets", "multicast-packets-received"),
   ("rx_broadcast_packets", "broadcast-packets-received"),
   ("rx_discards", "input-drops"),
   ("rx_unicast_packets", "packets-received")]

/-! ### Device facts (`get_facts`) -/

/-- The allow-list `_dev_facts_keys` (with its duplicated `os_version`,
exactly as in the source). -/
def dev_facts_keys : List String :=
  ["os_version", "hostname", "fqdn", "model", "os_version", "serial", "uptime"]

/-- Embeds `get_facts`.  `dev_facts` is the raw `self._dev.facts` mapping.
The dict is filtered to the allow-list; `serial` is popped (defaulting to
the empty string) and re-entered as `serial_number`; `uptime` is popped
WITHOUT a default (`KeyError` if missing) and converted to an int; the
interface list is obtained by calling `get_interfaces` and taking its
keys. -/
def get_facts (dev_facts : List (String × Value)) (tree : Value) (now : Int) :
    Except PyErr (List (String × Value)) := do
  let facts0 := dev_facts.filter (fun fv => dev_facts_keys.contains fv.1)
  let serial := match facts0.find? (fun fv => fv.1 == "serial") with
    | some fv => fv.2
    | none => Value.str ""
  let facts1 := facts0.filter (fun fv => fv.1 != "serial") ++ [("serial_number", serial)]
  match facts1.find? (fun fv => fv.1 == "uptime") with
  | none => .error .keyError
  | some ufv =>
    let facts2 := facts1.filter (fun fv => fv.1 != "uptime")
        ++ [("uptime", convert_int ufv.2 (.str ""))]
    let ifs ← get_interfaces tree now
    pure (facts2 ++ [("interface_list", Value.list (ifs.map (fun kv => kv.1)))])

/-! ### BGP neighbors (`get_bgp_neighbors`) -/

/-- One entry of the per-instance `peers` dict.  The fields produced by
`convert(int, ...)` with its default of the empty string stay
`Value`-typed (they are either an int or `""`); the two state flags are
genuine booleans. -/
structure BgpPeerRec where
  local_as : Value
  remote_as : Value
  remote_id : Value
  is_up : Bool
  is_enabled : Bool
  description : Value
  uptime : Value
  address_family : Value

/-- The `neighbor_details` dict literal built per neighbor. -/
def mk_neighbor_record (neighbor : Value) : Except PyErr BgpPeerRec := do
  let local_as ← pyGet neighbor "local-as"
  let remote_as ← pyGet neighbor "remote-as"
  let remote_id ← pyGet neighbor "router-id"
  let connection_state ← pyGet neighbor "connection-state"
  let shut ← pyGet neighbor "is-administratively-shut-down"
  let description ← pyGet neighbor "description"
  let dropped ← pyGet neighbor "time-since-connection-last-dropped"
  pure ⟨convert_int local_as (.str ""),
        convert_int remote_as (.str ""),
        remote_id,
        eqStr connection_state "bgp-st-established",
        eqStr shut "false",
        description,
        convert_int dropped (.str ""),
        .node []⟩

/-- One entry of the `bgp_neighbors` output dict. -/
structure BgpInstRec where
  router_id : Value
  peers : List (Value × BgpPeerRec)

/-- The inner neighbor loop of `get_bgp_neighbors`. -/
def neighbors_loop : List Value → List (Value × BgpPeerRec) →
    Except PyErr (List (Value × BgpPeerRec))
  | [], peers => .ok peers
  | neighbor :: rest, peers => do
    let neighbor_addr ← pyGet neighbor "neighbor-address"
    let neighbor_details ← mk_neighbor_record neighbor
    let peers' ← dictInsert peers neighbor_addr neighbor_details
    neighbors_loop rest peers'

/-- The outer instance loop of `get_bgp_neighbors`.  `bgp_instances` is
the (already shape-normalized) OUTER collection value: the source decides
whether to wrap the INNER `neighbor` value by testing
`isinstance(bgp_instances, dict)` on this outer variable — reproduced
verbatim here. -/
def instances_loop (bgp_instances : Value) :
    List Value → List (Value × BgpInstRec) →
    Except PyErr (List (Value × BgpInstRec))
  | [], acc => .ok acc
  | bgp_instance :: rest, acc => do
    let instance_name ← pyGet bgp_instance "instance-name"
    let ia ← pyGet bgp_instance "instance-active"
    let instance_details ← pyGet ia "default-vrf"
    let gpi ← pyGet instance_details "global-process-info"
    let vrf ← pyGet gpi "vrf"
    let router_id ← pyGet vrf "router-id"
    let nb ← pyGet instance_details "neighbors"
    let instance_neighbors0 ← pyGet nb "neighbor"
    let instance_neighbors :=
      if bgp_instances.isNode then Value.list [instance_neighbors0]
      else instance_neighbors0
    let nitems ← pyIter instance_neighbors
    let peers ← neighbors_loop nitems []
    let acc' ← dictInsert acc instance_name ⟨router_id, peers⟩
    instances_loop bgp_instances rest acc'

/-- Embeds `get_bgp_neighbors`: drill into
`data / bgp / instances / instance`, wrap the OUTER collection when it is
a single dict, then run the instance loop. -/
def get_bgp_neighbors (tree : Value) :
    Except PyErr (List (Value × BgpInstRec)) := do
  let d ← pyGet tree "data"
  let b ← pyGet d "bgp"
  let insts ← pyGet b "instances"
  let bgp_instances0 ← pyGet insts "instance"
  let bgp_instances :=
    if bgp_instances0.isNode then Value.list [bgp_instances0]
    else bgp_instances0
  let items ← pyIter bgp_instances
  instances_loop bgp_instances items []

/-! ### Concrete inputs used by the claims -/

/-- The facts mapping of claim C6. -/
def facts_input : List (String × Value) :=
  [("hostname", .str "r1"),
   ("model", .str "X"),
   ("serial", .str "ABC123"),
   ("uptime", .str "3600"),
   ("os_version", .str "6.5.1"),
   ("fqdn", .str "r1.example.com")]

/-- A fully populated interface node named `Gi0/0/0/0`. -/
def iface_gi0 : Value :=
  .node [("interface-name", .str "Gi0/0/0/0"),
         ("state", .str "im-state-up"),
         ("line-state", .str "im-state-up"),
         ("mac-address", .node [("address", .str "00:11:22:33:44:55")]),
         ("description", .str "uplink"),
         ("last-state-transition-time", .str "100")]

/-- An interface node carrying the reserved discard name. -/
def iface_null0 : Value :=
  .node [("interface-name", .str "Null0")]

/-- The record `get_interfaces` builds for `iface_gi0` at `now = 0`. -/
def iface_rec_gi0 : IfaceRec :=
  ⟨true, true, .str "00:11:22:33:44:55", .str "uplink", 0, -100⟩

/-- The interfaces response tree of claim C6. -/
def iface_tree_c6 : Value := wrap_iface_tree (.list [iface_gi0])

/-! ### C2: transport-implied default port -/

/-- C2 counterexample: the claim says any explicit transport value other
than the default selects the alternate port 57400, but the code selects
57400 only for `grpc`; an explicit `iosxr_transport = "ssh"` still yields
the NETCONF default 830. -/
theorem transport_other_value_port :
  effective_port ⟨some "ssh", none, none⟩ = 830 ∧ (830 : Nat) ≠ 57400 :=
  ⟨rfl, by decide⟩

/-- C2 (amended): with no explicit port, the default port is 57400 exactly
when the transport option lowercases to `grpc` (absent or any other value
gives 830), and an explicit `port` option overrides the transport-implied
default in every case. -/
theorem port_defaults :
  ∀ (t : Option String) (p : Nat),
    effective_port ⟨none, none, none⟩ = 830 ∧
    (strLower (t.getD "") = "grpc" → effective_port ⟨t, none, none⟩ = 57400) ∧
    (strLower (t.getD "") ≠ "grpc" → effective_port ⟨t, none, none⟩ = 830) ∧
    effective_port ⟨t, some p, none⟩ = p := by
  intro t p
  refine ⟨rfl, ?_, ?_, rfl⟩
  · intro h
    simp [effective_port, default_port, is_netconf, DEFAULT_GRPC_PORT, h]
  · intro h
    simp [effective_port, default_port, is_netconf, DEFAULT_NC_PORT, h]

/-- Witness for C2: `GRPC` (any casing) selects 57400, `telnet` keeps 830,
and an explicit port wins. -/
theorem port_defaults_witness :
  effective_port ⟨some "GRPC", none, none⟩ = 57400 ∧
  effective_port ⟨some "telnet", none, none⟩ = 830 ∧
  effective_port ⟨some "grpc", some 2200, none⟩ = 2200 :=
  ⟨(port_defaults (some "GRPC") 0).2.1 rfl,
   (port_defaults (some "telnet") 0).2.2.1 (by decide),
   (port_defaults (some "grpc") 2200).2.2.2⟩

/-! ### C4: edit failure disambiguation -/

/-- C4: when the edit RPC fails (and the lazy lock acquisition, if any,
succeeds), `load_replace_candidate` raises `ReplaceConfigException` and
`load_merge_candidate` raises `MergeConfigException`; the equalities pin
the exception kind, so no other kind can surface for an edit failure. -/
theorem edit_failure_exceptions :
  ∀ (dev : Device) (fs : String → String) (s : DriverState)
    (filename : Option String) (config : Option String),
    dev.editOk = false → dev.lockOk = true →
    (load_replace_candidate dev fs s filename config).1 = .error .replaceConfig ∧
    (load_merge_candidate dev fs s filename config).1 = .error .mergeConfig := by
  intro dev fs s filename config hde hlk
  cases hcl : s.config_lock <;> cases hsl : s.locked <;>
    simp [load_replace_candidate, load_merge_candidate, load_candidate, lock_,
          hde, hlk, hcl, hsl]

/-- Witness for C4 at a concrete device and session. -/
theorem edit_failure_exceptions_witness :
  (load_replace_candidate ⟨true, true, false, true, true⟩ (fun _ => "")
      ⟨true, false⟩ none (some "hostname r1")).1 = .error .replaceConfig ∧
  (load_merge_candidate ⟨true, true, false, true, true⟩ (fun _ => "")
      ⟨true, false⟩ none (some "hostname r1")).1 = .error .mergeConfig :=
  edit_failure_exceptions ⟨true, true, false, true, true⟩ (fun _ => "")
    ⟨true, false⟩ none (some "hostname r1") rfl rfl

/-! ### C5: lock idempotence -/

/-- C5 counterexample: the claim quantifies over every session state, but
from a state where the lock is already held, two consecutive `_lock` calls
issue ZERO lock RPCs, not exactly one. -/
theorem lock_twice_not_one_rpc :
  countLock (lock_twice ⟨true, true, true, true, true⟩ ⟨false, true⟩).2.2 = 0 ∧
  (0 : Nat) ≠ 1 :=
  ⟨rfl, by decide⟩

/-- C5 (amended): from a state where the lock is NOT held (and the lock
RPC succeeds), two consecutive `_lock` calls issue exactly one lock RPC
and leave the flag true; dually, from a held state two consecutive
`_unlock` calls issue exactly one unlock RPC and leave the flag false;
and the flag changes only after the corresponding RPC succeeds: a failing
lock (resp. unlock) RPC raises and leaves the flag unchanged. -/
theorem lock_unlock_idempotent :
  ∀ (dev : Device) (s : DriverState),
    (s.locked = false → dev.lockOk = true →
      (lock_twice dev s).1 = .ok () ∧
      countLock (lock_twice dev s).2.2 = 1 ∧
      (lock_twice dev s).2.1.locked = true) ∧
    (s.locked = true → dev.unlockOk = true →
      (unlock_twice dev s).1 = .ok () ∧
      countUnlock (unlock_twice dev s).2.2 = 1 ∧
      (unlock_twice dev s).2.1.locked = false) ∧
    (s.locked = false → dev.lockOk = false →
      (lock_ dev s).1 = .error .sessionLocked ∧ (lock_ dev s).2.1.locked = false) ∧
    (s.locked = true → dev.unlockOk = false →
      (unlock_ dev s).1 = .error .sessionLocked ∧ (unlock_ dev s).2.1.locked = true) := by
  intro dev s
  refine ⟨?_, ?_, ?_, ?_⟩ <;> intro h1 h2 <;>
    simp [lock_twice, unlock_twice, lock_, unlock_, countLock, countUnlock, h1, h2]

/-- Witness for C5 at concrete states on both sides. -/
theorem lock_unlock_idempotent_witness :
  countLock (lock_twice ⟨true, true, true, true, true⟩ ⟨false, false⟩).2.2 = 1 ∧
  countUnlock (unlock_twice ⟨true, true, true, true, true⟩ ⟨false, true⟩).2.2 = 1 :=
  ⟨((lock_unlock_idempotent ⟨true, true, true, true, true⟩ ⟨false, false⟩).1 rfl rfl).2.1,
   ((lock_unlock_idempotent ⟨true, true, true, true, true⟩ ⟨false, true⟩).2.1 rfl rfl).2.1⟩

/-! ### C10: file contents override inline config -/

/-- C10: whenever `_load_candidate` reaches the edit RPC, a supplied
filename makes the candidate text the file's contents — the inline
`config` argument is ignored — and with no filename the inline text is
sent as-is. -/
theorem file_overrides_inline :
  ∀ (dev : Device) (fs : String → String) (s : DriverState)
    (f : String) (config : Option String) (replace : Bool),
    dev.lockOk = true →
    editPayloads (load_candidate dev fs s (some f) config replace).2.2 = [some (fs f)] ∧
    editPayloads (load_candidate dev fs s none config replace).2.2 = [config] := by
  intro dev fs s f config replace hlk
  cases hcl : s.config_lock <;> cases hsl : s.locked <;>
    cases hde : dev.editOk <;> cases replace <;>
    simp [load_candidate, lock_, editPayloads, hlk, hcl, hsl, hde]

/-- Witness for C10: with both a filename and inline text supplied, the
edit RPC carries the file's contents. -/
theorem file_overrides_inline_witness :
  editPayloads (load_candidate ⟨true, true, true, true, true⟩
      (fun _ => "file text") ⟨true, false⟩ (some "cand.cfg") (some "inline text")
      false).2.2 = [some "file text"] :=
  (file_overrides_inline ⟨true, true, true, true, true⟩ (fun _ => "file text")
    ⟨true, false⟩ "cand.cfg" (some "inline text") false rfl).1

/-! ### C7: counter defaulting -/

/-- C7 counterexample: the Interface Counter Record built by the code has
twelve counter fields, not eleven as the claim states. -/
theorem counters_not_eleven :
  Except.map List.length (mk_counter_record (Value.node [])) = Except.ok 12 ∧
  (12 : Nat) ≠ 11 :=
  ⟨rfl, by decide⟩

/-- C7 (amended): for each of the TWELVE counter fields, a source key that
is absent from the statistics node yields the sentinel `-1` in the output
record, while a present value of `"0"` yields `0`. -/
theorem counters_defaulting :
  counterPairs.length = 12 ∧
  ∀ (kvs : List (String × Value)) (p : String × String), p ∈ counterPairs →
    (nodeGet kvs p.2 = Value.none →
      Except.map (fun r => nodeGet r p.1) (mk_counter_record (Value.node kvs))
        = Except.ok (Value.int (-1))) ∧
    (nodeGet kvs p.2 = Value.str "0" →
      Except.map (fun r => nodeGet r p.1) (mk_counter_record (Value.node kvs))
        = Except.ok (Value.int 0)) := by
  refine ⟨rfl, ?_⟩
  intro kvs p hp
  fin_cases hp <;>
    exact ⟨fun h => by
        change Except.ok (convert_int (nodeGet kvs _) (Value.int (-1))) = _
        rw [h]
        rfl,
      fun h => by
        change Except.ok (convert_int (nodeGet kvs _) (Value.int (-1))) = _
        rw [h]
        rfl⟩

/-- Witness for C7: an empty statistics node yields `-1`, a literal `"0"`
yields `0`. -/
theorem counters_defaulting_witness :
  Except.map (fun r => nodeGet r "tx_octets") (mk_counter_record (Value.node []))
    = Except.ok (Value.int (-1)) ∧
  Except.map (fun r => nodeGet r "rx_discards")
      (mk_counter_record (Value.node [("input-drops", Value.str "0")]))
    = Except.ok (Value.int 0) :=
  ⟨(counters_defaulting.2 [] ("tx_octets", "bytes-sent") (by decide)).1 rfl,
   (counters_defaulting.2 [("input-drops", Value.str "0")]
      ("rx_discards", "input-drops") (by decide)).2 rfl⟩

/-! ### C9: BGP neighbor administrative state -/

/-- C9: the `is_enabled` field of a neighbor record is the genuine boolean
`eqStr shut "false"`, and that comparison is true exactly when the
string-typed `is-administratively-shut-down` value is the literal string
`"false"` — any other value (`"true"`, the empty string, a missing field,
a non-string) gives `false`. -/
theorem bgp_is_enabled_string_false :
  ∀ (kvs : List (String × Value)),
    Except.map (fun r => r.is_enabled) (mk_neighbor_record (Value.node kvs))
      = Except.ok (eqStr (nodeGet kvs "is-administratively-shut-down") "false") ∧
    ∀ v : Value, eqStr v "false" = true ↔ v = Value.str "false" := by
  intro kvs
  refine ⟨rfl, ?_⟩
  intro v
  cases v <;> simp [eqStr]

/-! ### C6: device facts round trip -/

/-- C6: on the claim's facts mapping and an interfaces tree holding the
single non-null interface `Gi0/0/0/0`, `get_facts` yields
`serial_number = "ABC123"`, `uptime = 3600` (an integer) and
`interface_list = ["Gi0/0/0/0"]`; moreover, for EVERY interfaces tree the
`interface_list` field is exactly the key list of the `get_interfaces`
result — derived by invoking the interface normalizer, not read from the
facts tree. -/
theorem facts_round_trip :
  (Except.map (fun out =>
      (nodeGet out "serial_number", nodeGet out "uptime", nodeGet out "interface_list"))
      (get_facts facts_input iface_tree_c6 0)
    = Except.ok (Value.str "ABC123", Value.int 3600,
        Value.list [Value.str "Gi0/0/0/0"])) ∧
  ∀ (tree : Value) (now : Int),
    Except.map (fun out => nodeGet out "interface_list")
        (get_facts facts_input tree now)
      = Except.map (fun ifs => Value.list (ifs.map (fun kv => kv.1)))
          (get_interfaces tree now) := by
  constructor
  · rfl
  · intro tree now
    show Except.map _ (Except.bind (get_interfaces tree now) _)
      = Except.map _ (get_interfaces tree now)
    cases h : get_interfaces tree now <;> rfl

/-! ### C1: singleton-vs-collection shape normalization in BGP neighbors -/

/-- A BGP neighbor node with every field the neighbor loop reads. -/
def bgp_neighbor_node : Value :=
  .node [("neighbor-address", .str "10.0.0.2"),
         ("local-as", .str "65000"),
         ("remote-as", .str "65001"),
         ("router-id", .str "10.0.0.2"),
         ("connection-state", .str "bgp-st-established"),
         ("is-administratively-shut-down", .str "false"),
         ("description", .str "peer"),
         ("time-since-connection-last-dropped", .str "42")]

/-- First BGP instance, with its neighbor as an explicit list. -/
def bgp_instance_a : Value :=
  .node [("instance-name", .str "default"),
         ("instance-active", .node [("default-vrf",
            .node [("global-process-info",
                      .node [("vrf", .node [("router-id", .str "1.1.1.1")])]),
                   ("neighbors",
                      .node [("neighbor", .list [bgp_neighbor_node])])])])]

/-- Second BGP instance, parameterized by the shape of its `neighbor`
field (a singleton dict versus an explicit list). -/
def bgp_instance_b (nbrs : Value) : Value :=
  .node [("instance-name", .str "vrf-b"),
         ("instance-active", .node [("default-vrf",
            .node [("global-process-info",
                      .node [("vrf", .node [("router-id", .str "2.2.2.2")])]),
                   ("neighbors",
                      .node [("neighbor", nbrs)])])])]

/-- The response tree of the BGP RPC around a given `instance` value. -/
def wrap_bgp_tree (v : Value) : Value :=
  .node [("data",
    .node [("bgp",
      .node [("instances",
        .node [("instance", v)])])])]

/-- Multi-element instances collection whose second instance carries a
SINGLETON neighbor dict. -/
def bgp_tree_singleton : Value :=
  wrap_bgp_tree (.list [bgp_instance_a, bgp_instance_b bgp_neighbor_node])

/-- The same tree with the neighbor as an explicit one-element list. -/
def bgp_tree_listed : Value :=
  wrap_bgp_tree (.list [bgp_instance_a, bgp_instance_b (.list [bgp_neighbor_node])])

/-- The peer record both variants should produce for `10.0.0.2`. -/
def bgp_peer_rec : BgpPeerRec :=
  ⟨.int 65000, .int 65001, .str "10.0.0.2", true, true, .str "peer", .int 42, .node []⟩

/-- The output `get_bgp_neighbors` produces for the listed variant. -/
def bgp_expected_listed : List (Value × BgpInstRec) :=
  [(.str "default", ⟨.str "1.1.1.1", [(.str "10.0.0.2", bgp_peer_rec)]⟩),
   (.str "vrf-b", ⟨.str "2.2.2.2", [(.str "10.0.0.2", bgp_peer_rec)]⟩)]

/-- C1 (code bug): the listed variant normalizes fine, but the singleton
variant is NOT normalized the same way: because the wrap decision tests
the shape of the OUTER `bgp_instances` variable (always a list at that
point) instead of the inner neighbors value, the singleton neighbor dict
is iterated over its keys and the call raises `AttributeError` instead of
producing the listed variant's record. -/
theorem bgp_singleton_neighbor_bug :
  get_bgp_neighbors bgp_tree_listed = Except.ok bgp_expected_listed ∧
  get_bgp_neighbors bgp_tree_singleton = Except.error PyErr.attributeError :=
  ⟨rfl, rfl⟩

/-! ### C8: Null0 filtering -/

theorem keyEq_eq : ∀ {a b : Value}, keyEq a b = true → a = b := by
  intro a b h
  cases a <;> cases b <;> simp_all [keyEq]

theorem eqStr_false_ne {v : Value} {s : String} (h : eqStr v s = false) :
    v ≠ Value.str s := by
  intro hv
  subst hv
  simp [eqStr] at h

theorem dictInsert_mem {α : Type} {acc : List (Value × α)} {k : Value} {v : α}
    {acc' : List (Value × α)} (h : dictInsert acc k v = .ok acc') :
    ∀ k' r', (k', r') ∈ acc' → k' = k ∨ ∃ r₀, (k', r₀) ∈ acc := by
  intro k' r' hmem
  unfold dictInsert at h
  split at h
  · split at h
    · injection h with h
      subst h
      obtain ⟨⟨k0, r0⟩, hk0, heq⟩ := List.mem_map.mp hmem
      by_cases hke : keyEq k0 k = true
      · simp only [hke, if_true] at heq
        injection heq with h1 h2
        subst h1
        exact Or.inl (keyEq_eq hke)
      · simp only [hke, Bool.false_eq_true, if_false] at heq
        injection heq with h1 h2
        subst h1
        exact Or.inr ⟨r0, hk0⟩
    · injection h with h
      subst h
      rcases List.mem_append.mp hmem with hin | hin
      · exact Or.inr ⟨r', hin⟩
      · have heq := List.mem_singleton.mp hin
        injection heq with h1 h2
        subst h1
        exact Or.inl rfl
  · exact Except.noConfusion h

theorem dictInsert_preserves {α : Type} {acc : List (Value × α)} {k : Value}
    {v : α} {acc' : List (Value × α)} (h : dictInsert acc k v = .ok acc')
    (k0 : Value) : (∃ r, (k0, r) ∈ acc) → ∃ r, (k0, r) ∈ acc' := by
  rintro ⟨r, hr⟩
  unfold dictInsert at h
  split at h
  · split at h
    · injection h with h
      subst h
      by_cases hke : keyEq k0 k = true
      · exact ⟨v, List.mem_map.mpr ⟨(k0, r), hr, by simp [hke]⟩⟩
      · exact ⟨r, List.mem_map.mpr ⟨(k0, r), hr, by simp [hke]⟩⟩
    · injection h with h
      subst h
      exact ⟨r, List.mem_append_left _ hr⟩
  · exact Except.noConfusion h

theorem dictInsert_self {α : Type} {acc : List (Value × α)} {k : Value}
    {v : α} {acc' : List (Value × α)} (h : dictInsert acc k v = .ok acc') :
    ∃ r, (k, r) ∈ acc' := by
  unfold dictInsert at h
  split at h
  · rename_i hh
    split at h
    · rename_i ha
      injection h with h
      subst h
      obtain ⟨⟨k0, r0⟩, hk0, hke⟩ := List.any_eq_true.mp ha
      have hk : k0 = k := keyEq_eq hke
      subst hk
      exact ⟨v, List.mem_map.mpr ⟨(k0, r0), hk0, by simp [hke]⟩⟩
    · injection h with h
      subst h
      exact ⟨v, List.mem_append_right _ (List.mem_singleton_self _)⟩
  · exact Except.noConfusion h

theorem norm_loop_no_null0 {α : Type} (body : Value → Except PyErr α) :
    ∀ (items : List Value) (acc out : List (Value × α)),
      norm_loop body items acc = .ok out →
      (∀ r, (Value.str "Null0", r) ∉ acc) →
      ∀ r, (Value.str "Null0", r) ∉ out := by
  intro items
  induction items with
  | nil =>
    intro acc out h hacc
    injection h with h
    subst h
    exact hacc
  | cons i rest ih =>
    intro acc out h hacc
    simp only [norm_loop] at h
    cases hg : pyGet i "interface-name" with
    | error e =>
      simp only [hg] at h
      exact Except.noConfusion h
    | ok name =>
      simp only [hg] at h
      by_cases hn : eqStr name "Null0" = true
      · simp only [hn, if_true] at h
        exact ih acc out h hacc
      · have hn' : eqStr name "Null0" = false := by simpa using hn
        simp only [hn', Bool.false_eq_true, if_false] at h
        cases hb : body i with
        | error e =>
          simp only [hb] at h
          exact Except.noConfusion h
        | ok r =>
          simp only [hb] at h
          cases hd : dictInsert acc name r with
          | error e =>
            simp only [hd] at h
            exact Except.noConfusion h
          | ok acc' =>
            simp only [hd] at h
            refine ih acc' out h ?_
            intro r' hmem
            rcases dictInsert_mem hd _ _ hmem with hk | ⟨r0, hr0⟩
            · exact eqStr_false_ne hn' hk.symm
            · exact hacc r0 hr0

theorem norm_loop_persist {α : Type} (body : Value → Except PyErr α) :
    ∀ (items : List Value) (acc out : List (Value × α)) (k : Value),
      norm_loop body items acc = .ok out →
      (∃ r, (k, r) ∈ acc) → ∃ r, (k, r) ∈ out := by
  intro items
  induction items with
  | nil =>
    intro acc out k h hk
    injection h with h
    subst h
    exact hk
  | cons i rest ih =>
    intro acc out k h hk
    simp only [norm_loop] at h
    cases hg : pyGet i "interface-name" with
    | error e =>
      simp only [hg] at h
      exact Except.noConfusion h
    | ok name =>
      simp only [hg] at h
      by_cases hn : eqStr name "Null0" = true
      · simp only [hn, if_true] at h
        exact ih acc out k h hk
      · have hn' : eqStr name "Null0" = false := by simpa using hn
        simp only [hn', Bool.false_eq_true, if_false] at h
        cases hb : body i with
        | error e =>
          simp only [hb] at h
          exact Except.noConfusion h
        | ok r =>
          simp only [hb] at h
          cases hd : dictInsert acc name r with
          | error e =>
            simp only [hd] at h
            exact Except.noConfusion h
          | ok acc' =>
            simp only [hd] at h
            exact ih acc' out k h (dictInsert_preserves hd k hk)

theorem norm_loop_processed {α : Type} (body : Value → Except PyErr α) :
    ∀ (items : List Value) (acc out : List (Value × α)) (iface : Value),
      norm_loop body items acc = .ok out →
      iface ∈ items →
      ∀ name, pyGet iface "interface-name" = .ok name →
        eqStr name "Null0" = false →
        ∃ r, (name, r) ∈ out := by
  intro items
  induction items with
  | nil =>
    intro acc out iface h hmem
    cases hmem
  | cons i rest ih =>
    intro acc out iface h hmem name hn hnn
    simp only [norm_loop] at h
    rcases List.mem_cons.mp hmem with rfl | hmem'
    · simp only [hn] at h
      simp only [hnn, Bool.false_eq_true, if_false] at h
      cases hb : body iface with
      | error e =>
        simp only [hb] at h
        exact Except.noConfusion h
      | ok r =>
        simp only [hb] at h
        cases hd : dictInsert acc name r with
        | error e =>
          simp only [hd] at h
          exact Except.noConfusion h
        | ok acc' =>
          simp only [hd] at h
          exact norm_loop_persist body rest acc' out name h (dictInsert_self hd)
    · cases hg : pyGet i "interface-name" with
      | error e =>
        simp only [hg] at h
        exact Except.noConfusion h
      | ok name0 =>
        simp only [hg] at h
        by_cases hn0 : eqStr name0 "Null0" = true
        · simp only [hn0, if_true] at h
          exact ih acc out iface h hmem' name hn hnn
        · have hn0' : eqStr name0 "Null0" = false := by simpa using hn0
          simp only [hn0', Bool.false_eq_true, if_false] at h
          cases hb : body i with
          | error e =>
            simp only [hb] at h
            exact Except.noConfusion h
          | ok r =>
            simp only [hb] at h
            cases hd : dictInsert acc name0 r with
            | error e =>
              simp only [hd] at h
              exact Except.noConfusion h
            | ok acc' =>
              simp only [hd] at h
              exact ih acc' out iface h hmem' name hn hnn

/-- C8: for every interface collection, no record keyed by the reserved
name `Null0` ever appears in the output of `get_interfaces` or
`get_interfaces_counters`, while every other interface of the collection
(whatever its position) is still processed: its name is a key of the
output. -/
theorem null0_filtered :
  ∀ (ifaces : List Value) (now : Int),
    (∀ out, get_interfaces (wrap_iface_tree (.list ifaces)) now = .ok out →
      ((∀ r, (Value.str "Null0", r) ∉ out) ∧
       ∀ iface ∈ ifaces, ∀ name, pyGet iface "interface-name" = .ok name →
         eqStr name "Null0" = false → ∃ r, (name, r) ∈ out)) ∧
    (∀ out, get_interfaces_counters (wrap_iface_tree (.list ifaces)) = .ok out →
      ((∀ r, (Value.str "Null0", r) ∉ out) ∧
       ∀ iface ∈ ifaces, ∀ name, pyGet iface "interface-name" = .ok name →
         eqStr name "Null0" = false → ∃ r, (name, r) ∈ out)) := by
  intro ifaces now
  constructor
  · intro out h
    have h' : norm_loop (fun interface => mk_iface_record interface now)
        ifaces [] = .ok out := h
    exact ⟨norm_loop_no_null0 _ ifaces [] out h' (by simp),
           fun iface hm name hn hnn =>
             norm_loop_processed _ ifaces [] out iface h' hm name hn hnn⟩
  · intro out h
    have h' : norm_loop counters_body ifaces [] = .ok out := h
    exact ⟨norm_loop_no_null0 _ ifaces [] out h' (by simp),
           fun iface hm name hn hnn =>
             norm_loop_processed _ ifaces [] out iface h' hm name hn hnn⟩

/-- Witness for C8: with `Null0` listed first, the output holds exactly
the `Gi0/0/0/0` record and nothing keyed `Null0`. -/
theorem null0_filtered_witness :
  (Value.str "Null0", iface_rec_gi0) ∉ [(Value.str "Gi0/0/0/0", iface_rec_gi0)] ∧
  (Value.str "Gi0/0/0/0", iface_rec_gi0) ∈ [(Value.str "Gi0/0/0/0", iface_rec_gi0)] := by
  have h := (null0_filtered [iface_null0, iface_gi0] 0).1
    [(Value.str "Gi0/0/0/0", iface_rec_gi0)] rfl
  refine ⟨h.1 iface_rec_gi0, ?_⟩
  obtain ⟨r, hr⟩ := h.2 iface_gi0
    (List.mem_cons_of_mem _ (List.mem_cons_self _ _))
    (Value.str "Gi0/0/0/0") rfl rfl
  rcases List.mem_singleton.mp hr with heq
  cases heq
  exact List.mem_singleton_self _

/-! ### C3: lazy locking around load / commit / discard -/

/-- C3: with the lazy locking policy (`config_lock = false`) and a
functioning device, a candidate load acquires the configuration lock
exactly when it is not already held (and leaves it held), and a successful
commit — and equally a successful discard — releases it exactly when it
was held (and leaves it released). -/
theorem lazy_lock_lifecycle :
  ∀ (dev : Device) (fs : String → String) (s : DriverState)
    (filename : Option String) (config : Option String) (replace : Bool),
    s.config_lock = false → dev.lockOk = true →
    ((load_candidate dev fs s filename config replace).2.1.locked = true ∧
     countLock (load_candidate dev fs s filename config replace).2.2
       = (if s.locked then 0 else 1)) ∧
    (dev.commitOk = true → dev.unlockOk = true →
      ((commit_config dev s).1 = .ok () ∧
       (commit_config dev s).2.1.locked = false ∧
       countUnlock (commit_config dev s).2.2 = (if s.locked then 1 else 0))) ∧
    (dev.discardOk = true → dev.unlockOk = true →
      ((discard_config dev s).1 = .ok () ∧
       (discard_config dev s).2.1.locked = false ∧
       countUnlock (discard_config dev s).2.2 = (if s.locked then 1 else 0))) := by
  intro dev fs s filename config replace hcl hlk
  refine ⟨?_, ?_, ?_⟩
  · cases hsl : s.locked <;> cases hde : dev.editOk <;> cases replace <;>
      simp [load_candidate, lock_, countLock, List.countP_cons, List.countP_nil,
            hcl, hlk, hsl, hde]
  · intro hco hulo
    cases hsl : s.locked <;>
      simp [commit_config, unlock_, countUnlock, List.countP_cons, List.countP_nil,
            hcl, hco, hulo, hsl]
  · intro hdo hulo
    cases hsl : s.locked <;>
      simp [discard_config, unlock_, countUnlock, List.countP_cons, List.countP_nil,
            hcl, hdo, hulo, hsl]

/-- Witness for C3: a load from the unlocked lazy state leaves the lock
held, and a commit from the locked lazy state releases it. -/
theorem lazy_lock_lifecycle_witness :
  (load_candidate ⟨true, true, true, true, true⟩ (fun _ => "")
      ⟨false, false⟩ none (some "hostname r1") false).2.1.locked = true ∧
  (commit_config ⟨true, true, true, true, true⟩ ⟨false, true⟩).2.1.locked = false := by
  have h1 := lazy_lock_lifecycle ⟨true, true, true, true, true⟩ (fun _ => "")
    ⟨false, false⟩ none (some "hostname r1") false rfl rfl
  have h2 := lazy_lock_lifecycle ⟨true, true, true, true, true⟩ (fun _ => "")
    ⟨false, true⟩ none (some "hostname r1") false rfl rfl
  exact ⟨h1.1.1, (h2.2.1 rfl rfl).2.1⟩

end IosxrRpc
